import Mathlib

/-
  Verification development for the dermalens skincare-tracking backend.

  Shallow embedding of the treatment-plan lifecycle, score-trend engine,
  metric normalizer and routine generator, translated from:
    - app/api/v1/routes/routines.py   (plan creation / adjustment / decline check)
    - app/api/v1/routes/scans.py      (score-delta computation)
    - app/repositories/treatment_plan_repository.py (lock / days-remaining)
    - app/services/vision/nanobanana_service.py     (metric normalizer)
    - app/services/routine_engine/routine_generator.py (routine policy)
    - backend/models/{scan,treatment_plan}.py       (data model, enums)
    - backend/schemas/treatment_plan.py             (request validation)
  Scores are modelled as rationals, dates/datetimes as integers (days).
  A database is the per-table list of rows; an HTTP handler is a function
  from (request, user, today, database) to Except error (database, result).
  Raising before the single commit at the end of a handler discards all
  staged session mutations, so an error result carries no state change.
-/

namespace DermaLens

/-- Scan lifecycle status, from backend/models/scan.py (ScanStatus). -/
inductive ScanStatus
  | pending
  | processing
  | completed
  | failed
deriving DecidableEq, Repr

/-- Treatment plan status, from backend/models/treatment_plan.py (PlanStatus). -/
inductive PlanStatus
  | active
  | completed
  | adjusted
  | cancelled
deriving DecidableEq, Repr

/-- Adjustment reasons, from backend/models/treatment_plan.py (AdjustmentReason). -/
inductive AdjustmentReason
  | score_decline
  | severe_irritation
  | user_request
  | plan_completion
deriving DecidableEq, Repr

/-- The per-metric score columns of a scan (acne_score .. overall_score). -/
inductive Metric
  | acne
  | redness
  | oiliness
  | dryness
  | texture
  | pore_size
  | dark_spots
  | overall
deriving DecidableEq, Repr

/-- A scan row, from backend/models/scan.py (Scan).  Image keys/URLs and
audit metadata are omitted: no control flow in the embedded code reads them. -/
structure Scan where
  id : Nat
  user_id : Nat
  status : ScanStatus
  scan_date : Int
  acne_score : Option ℚ
  redness_score : Option ℚ
  oiliness_score : Option ℚ
  dryness_score : Option ℚ
  texture_score : Option ℚ
  pore_size_score : Option ℚ
  dark_spots_score : Option ℚ
  overall_score : Option ℚ
  is_baseline : Bool
deriving DecidableEq, Repr

/-- Rendering of the dynamic attribute access getattr(scan, metric + "_score"). -/
def Scan.metricScore (s : Scan) : Metric → Option ℚ
  | .acne => s.acne_score
  | .redness => s.redness_score
  | .oiliness => s.oiliness_score
  | .dryness => s.dryness_score
  | .texture => s.texture_score
  | .pore_size => s.pore_size_score
  | .dark_spots => s.dark_spots_score
  | .overall => s.overall_score

/-- Scan.all_scores property from backend/models/scan.py. -/
def Scan.all_scores (s : Scan) : List (String × Option ℚ) :=
  [("acne", s.acne_score), ("redness", s.redness_score),
   ("oiliness", s.oiliness_score), ("dryness", s.dryness_score),
   ("texture", s.texture_score), ("pore_size", s.pore_size_score),
   ("dark_spots", s.dark_spots_score), ("overall", s.overall_score)]

/-- settings.SCORE_DECLINE_THRESHOLD from app/core/config.py. -/
def SCORE_DECLINE_THRESHOLD : ℚ := 10

/-- A ScoreDelta row, from backend/models/score_delta.py as populated by
calculate_score_deltas in app/api/v1/routes/scans.py. -/
structure ScoreDelta where
  current_scan_id : Nat
  previous_scan_id : Nat
  metric_name : Metric
  previous_score : ℚ
  current_score : ℚ
  delta : ℚ
  percent_change : ℚ
  improvement : Bool
  is_significant : Bool
  days_between_scans : Int
deriving DecidableEq, Repr

/-- percent_change = (delta / prev_value * 100) if prev_value > 0 else 0,
from app/api/v1/routes/scans.py line 260. -/
def percent_change_of (prev_value curr_value : ℚ) : ℚ :=
  if prev_value > 0 then (curr_value - prev_value) / prev_value * 100 else 0

/-- The metric list iterated by calculate_score_deltas in scans.py. -/
def delta_metrics : List Metric :=
  [.acne, .redness, .oiliness, .dryness, .texture, .pore_size, .dark_spots, .overall]

/-- Loop body of calculate_score_deltas for one metric present in both scans. -/
def mkScoreDelta (previous current : Scan) (m : Metric) (prev_value curr_value : ℚ)
    (days_between : Int) : ScoreDelta :=
  let delta := curr_value - prev_value
  let percent_change := percent_change_of prev_value curr_value
  { current_scan_id := current.id
    previous_scan_id := previous.id
    metric_name := m
    previous_score := prev_value
    current_score := curr_value
    delta := delta
    percent_change := percent_change
    improvement := decide (delta < 0)
    is_significant := decide (abs percent_change ≥ SCORE_DECLINE_THRESHOLD)
    days_between_scans := days_between }

/-- The delta records emitted by calculate_score_deltas for a fixed
(previous, current) pair: metrics absent on either side are skipped. -/
def delta_records (previous current : Scan) : List ScoreDelta :=
  let days_between := current.scan_date - previous.scan_date
  delta_metrics.filterMap fun m =>
    match previous.metricScore m, current.metricScore m with
    | some prev_value, some curr_value =>
        some (mkScoreDelta previous current m prev_value curr_value days_between)
    | _, _ => none

/-- Insertion into a list kept sorted by scan_date descending. -/
def insertByDateDesc (s : Scan) : List Scan → List Scan
  | [] => [s]
  | t :: ts =>
      if s.scan_date ≥ t.scan_date then s :: t :: ts else t :: insertByDateDesc s ts

/-- ORDER BY scan_date DESC over a list of scan rows. -/
def sortByDateDesc (l : List Scan) : List Scan := l.foldr insertByDateDesc []

/-- The query in calculate_score_deltas selecting the previous scan:
same user, smaller id, completed, newest scan_date first, limit 1. -/
def find_previous_scan (current : Scan) (scans : List Scan) : Option Scan :=
  (sortByDateDesc (scans.filter fun s =>
    decide (s.user_id = current.user_id ∧ s.id < current.id ∧
      s.status = ScanStatus.completed))).head?

/-- calculate_score_deltas from app/api/v1/routes/scans.py: find the previous
completed scan and emit one ScoreDelta per metric present in both scans.
Returns nothing when no predecessor exists. -/
def calculate_score_deltas (current : Scan) (scans : List Scan) : List ScoreDelta :=
  match find_previous_scan current scans with
  | none => []
  | some previous => delta_records previous current

/-- The completed scans of a user, newest first: the query
SELECT .. WHERE user_id = u AND status = completed ORDER BY scan_date DESC. -/
def completedScansDesc (user_id : Nat) (scans : List Scan) : List Scan :=
  sortByDateDesc (scans.filter fun s =>
    decide (s.user_id = user_id ∧ s.status = ScanStatus.completed))

/-- The four primary metrics inspected by check_score_decline. -/
def primary_metrics : List Metric := [.acne, .redness, .oiliness, .dryness]

/-- Loop body of check_score_decline for one primary metric.  The guard
mirrors Python truthiness in `if curr_val and prev_val`: the metric is
skipped when either value is missing or equal to 0. -/
def metricDecline (current previous : Scan) (m : Metric) : Bool :=
  match current.metricScore m, previous.metricScore m with
  | some curr_val, some prev_val =>
      if curr_val ≠ 0 ∧ prev_val ≠ 0 then
        decide ((curr_val - prev_val) / prev_val * 100 ≥ SCORE_DECLINE_THRESHOLD)
      else false
  | _, _ => false

/-- check_score_decline from app/api/v1/routes/routines.py: take the two most
recent completed scans of the user; with fewer than two, report no decline;
otherwise report decline when any primary metric worsened past the threshold. -/
def check_score_decline (user_id : Nat) (scans : List Scan) : Bool :=
  match completedScansDesc user_id scans with
  | current :: previous :: _ => primary_metrics.any (metricDecline current previous)
  | _ => false

/-- One routine step dict built by RoutineEngine. -/
structure RoutineStep where
  step_number : Nat
  product_type : String
  instructions : String
  wait_time_minutes : Nat
deriving DecidableEq, Repr

/-- The scores dict (Scan.all_scores) passed to generate_routine. -/
abbrev Scores := List (String × Option ℚ)

/-- RoutineEngine._get_cleanser_instructions. -/
def get_cleanser_instructions (concern : String) (time : String) : String :=
  if concern = "acne" then
    "Use gentle salicylic acid cleanser. Massage for 30 seconds, rinse with lukewarm water."
  else if concern = "redness" then
    "Use gentle, fragrance-free cream cleanser. Avoid hot water and harsh scrubbing."
  else if concern = "dryness" then
    "Use hydrating, non-foaming cleanser. Pat skin instead of rubbing."
  else
    "Use gel-based or foaming cleanser to remove excess oil without stripping."

/-- RoutineEngine._get_treatment_instructions. -/
def get_treatment_instructions (concern : String) : String :=
  if concern = "acne" then
    "Apply retinol or adapalene (start 2-3x/week, build up slowly). Pea-sized amount for entire face."
  else if concern = "redness" then
    "Apply azelaic acid or niacinamide serum to affected areas."
  else if concern = "dryness" then
    "Apply hydrating treatment with ceramides and peptides."
  else if concern = "oiliness" then
    "Apply oil-control serum with niacinamide and zinc."
  else
    "Apply targeted treatment product."

/-- RoutineEngine._get_serum_instructions. -/
def get_serum_instructions (concern : String) (time : String) : String :=
  if time = "am" then
    "Apply antioxidant serum (Vitamin C or niacinamide) to protect against environmental damage."
  else
    "Apply hydrating or repairing serum based on your skin\x27s needs."

/-- RoutineEngine._get_moisturizer_instructions. -/
def get_moisturizer_instructions (concern : String) (skin_type : Option String)
    (time : String) : String :=
  if concern = "dryness" then
    "Apply rich, emollient moisturizer. Use more generous amount for PM."
  else if concern = "oiliness" then
    "Apply lightweight, oil-free gel moisturizer."
  else
    "Apply moisturizer appropriate for your skin type."

/-- RoutineEngine._build_am_routine: cleanser, toner only for acne/oiliness,
serum, moisturizer, then sunscreen always last. -/
def build_am_routine (concern : String) (scores : Scores) (skin_type : Option String) :
    List RoutineStep :=
  let routine : List RoutineStep :=
    [{ step_number := 1, product_type := "cleanser",
       instructions := get_cleanser_instructions concern "am", wait_time_minutes := 0 }]
  let routine :=
    if concern ∈ ["acne", "oiliness"] then
      routine ++
        [{ step_number := 2, product_type := "toner",
           instructions := "Apply hydrating or balancing toner to clean skin",
           wait_time_minutes := 1 }]
    else routine
  let routine := routine ++
    [{ step_number := routine.length + 1, product_type := "serum",
       instructions := get_serum_instructions concern "am", wait_time_minutes := 2 }]
  let routine := routine ++
    [{ step_number := routine.length + 1, product_type := "moisturizer",
       instructions := get_moisturizer_instructions concern skin_type "am",
       wait_time_minutes := 2 }]
  routine ++
    [{ step_number := routine.length + 1, product_type := "sunscreen",
       instructions := "Apply broad-spectrum SPF 30+ sunscreen. Reapply every 2 hours if outdoors.",
       wait_time_minutes := 0 }]

/-- RoutineEngine._build_pm_routine: cleanser, toner only for
acne/oiliness/redness, active treatment, serum, moisturizer. -/
def build_pm_routine (concern : String) (scores : Scores) (skin_type : Option String) :
    List RoutineStep :=
  let routine : List RoutineStep :=
    [{ step_number := 1, product_type := "cleanser",
       instructions := get_cleanser_instructions concern "pm", wait_time_minutes := 0 }]
  let routine :=
    if concern ∈ ["acne", "oiliness", "redness"] then
      routine ++
        [{ step_number := 2, product_type := "toner",
           instructions := "Apply toner to balance and prep skin",
           wait_time_minutes := 1 }]
    else routine
  let routine := routine ++
    [{ step_number := routine.length + 1, product_type := "treatment",
       instructions := get_treatment_instructions concern, wait_time_minutes := 5 }]
  let routine := routine ++
    [{ step_number := routine.length + 1, product_type := "serum",
       instructions := get_serum_instructions concern "pm", wait_time_minutes := 2 }]
  routine ++
    [{ step_number := routine.length + 1, product_type := "moisturizer",
       instructions := get_moisturizer_instructions concern skin_type "pm",
       wait_time_minutes := 0 }]

/-- The dict returned by RoutineEngine.generate_routine. -/
structure GeneratedRoutine where
  am_routine : List RoutineStep
  pm_routine : List RoutineStep
deriving DecidableEq, Repr

/-- RoutineEngine.generate_routine from routine_generator.py. -/
def generate_routine (primary_concern : String) (scores : Scores)
    (skin_type : Option String) : GeneratedRoutine :=
  { am_routine := build_am_routine primary_concern scores skin_type
    pm_routine := build_pm_routine primary_concern scores skin_type }

/-- One active-ingredient entry of the ingredient database. -/
structure ActiveIngredient where
  name : String
  concentration : Option String
  benefits : String
deriving DecidableEq, Repr

/-- The "actives" lists of RoutineEngine._load_ingredient_database, keyed by
concern.  The "supportive" lists are omitted: get_product_recommendations,
the only consumer embedded here, reads only the actives. -/
def ingredient_database : List (String × List ActiveIngredient) :=
  [("acne",
    [{ name := "Salicylic Acid", concentration := some "0.5-2%",
       benefits := "Exfoliates, unclogs pores" },
     { name := "Benzoyl Peroxide", concentration := some "2.5-5%",
       benefits := "Kills acne bacteria" },
     { name := "Niacinamide", concentration := some "5-10%",
       benefits := "Reduces inflammation" },
     { name := "Retinol", concentration := some "0.25-1%",
       benefits := "Cell turnover, prevents clogs" }]),
   ("redness",
    [{ name := "Niacinamide", concentration := some "5-10%",
       benefits := "Reduces redness" },
     { name := "Azelaic Acid", concentration := some "10-20%",
       benefits := "Anti-inflammatory" },
     { name := "Centella Asiatica", concentration := none,
       benefits := "Calming, healing" },
     { name := "Green Tea Extract", concentration := none,
       benefits := "Antioxidant, soothing" }]),
   ("dryness",
    [{ name := "Hyaluronic Acid", concentration := none,
       benefits := "Deep hydration" },
     { name := "Ceramides", concentration := none,
       benefits := "Barrier repair" },
     { name := "Glycerin", concentration := none,
       benefits := "Moisture retention" },
     { name := "Urea", concentration := some "5-10%",
       benefits := "Hydration, exfoliation" }]),
   ("oiliness",
    [{ name := "Niacinamide", concentration := some "5-10%",
       benefits := "Regulates oil" },
     { name := "Salicylic Acid", concentration := some "0.5-2%",
       benefits := "Controls oil" },
     { name := "Zinc", concentration := none,
       benefits := "Oil regulation" },
     { name := "Retinol", concentration := some "0.25-0.5%",
       benefits := "Normalizes oil" }])]

/-- One product recommendation dict. -/
structure Recommendation where
  ingredient : String
  concentration : String
  benefits : String
  application : String
deriving DecidableEq, Repr

/-- Python substring test used for the application field
("PM" if "Retinol" in ingredient name else "AM/PM"). -/
def nameHasRetinol (name : String) : Bool := (name.splitOn "Retinol").length > 1

/-- RoutineEngine.get_product_recommendations. -/
def get_product_recommendations (concern : String) : List Recommendation :=
  let actives :=
    match ingredient_database.lookup concern with
    | some l => l
    | none => []
  actives.map fun ai =>
    { ingredient := ai.name
      concentration := match ai.concentration with | some c => c | none => "As directed"
      benefits := ai.benefits
      application := if nameHasRetinol ai.name then "PM" else "AM/PM" }

/-- The normalized per-metric score record built by
NanoBananaService._normalize_response (score fields only). -/
structure NormalizedScores where
  acne_score : Option ℚ
  redness_score : Option ℚ
  oiliness_score : Option ℚ
  dryness_score : Option ℚ
  texture_score : Option ℚ
  pore_size_score : Option ℚ
  dark_spots_score : Option ℚ
deriving DecidableEq, Repr

/-- NanoBananaService._normalize_value: clamp a present value into [0,100]. -/
def normalize_value : Option ℚ → Option ℚ
  | none => none
  | some v => some (max 0 (min 100 v))

/-- The score fields of _normalize_response: each raw metric value clamped. -/
def normalize_response (acne redness oiliness dryness texture pores dark_spots : Option ℚ) :
    NormalizedScores :=
  { acne_score := normalize_value acne
    redness_score := normalize_value redness
    oiliness_score := normalize_value oiliness
    dryness_score := normalize_value dryness
    texture_score := normalize_value texture
    pore_size_score := normalize_value pores
    dark_spots_score := normalize_value dark_spots }

/-- The fixed weight table of NanoBananaService._calculate_overall_score,
as (field accessor, weight) pairs in iteration order. -/
def overall_weights : List ((NormalizedScores → Option ℚ) × ℚ) :=
  [(NormalizedScores.acne_score, 25/100),
   (NormalizedScores.redness_score, 20/100),
   (NormalizedScores.oiliness_score, 15/100),
   (NormalizedScores.dryness_score, 15/100),
   (NormalizedScores.texture_score, 15/100),
   (NormalizedScores.pore_size_score, 5/100),
   (NormalizedScores.dark_spots_score, 5/100)]

/-- round(x, 2) on the final weighted average.  Python rounds floats
half-to-even; on rationals we use the integer rounding of 100*x, which
agrees except exactly at half-hundredth ties. -/
def round2 (x : ℚ) : ℚ := (round (x * 100) : ℤ) / 100

/-- NanoBananaService._calculate_overall_score: accumulate score*weight and
weight over the present metrics, return 0 when no metric is present, else
the renormalized weighted average rounded to 2 decimals. -/
def calculate_overall_score (scores : NormalizedScores) : ℚ :=
  let acc := overall_weights.foldl
    (fun (acc : ℚ × ℚ) mw =>
      match mw.1 scores with
      | some score => (acc.1 + score * mw.2, acc.2 + mw.2)
      | none => acc)
    (0, 0)
  if acc.2 = 0 then 0 else round2 (acc.1 / acc.2)

/-- A treatment plan row, from backend/models/treatment_plan.py
(TreatmentPlan).  AI-generation metadata and timestamps are omitted:
no embedded control flow reads them. -/
structure TreatmentPlan where
  id : Nat
  user_id : Nat
  status : PlanStatus
  version : Nat
  primary_concern : String
  start_date : Int
  planned_end_date : Int
  actual_end_date : Option Int
  lock_duration_days : Int
  baseline_scan_id : Option Nat
  am_routine : List RoutineStep
  pm_routine : List RoutineStep
  recommended_products : List Recommendation
  instructions : String
  warnings : String
  can_adjust : Bool
  adjustment_reason : Option AdjustmentReason
  adjustment_notes : Option String
  previous_plan_id : Option Nat
deriving DecidableEq, Repr

/-- A user row; only the fields the embedded handlers read. -/
structure User where
  id : Nat
  skin_type : Option String
deriving DecidableEq, Repr

/-- The scan and plan tables. -/
structure Database where
  scans : List Scan
  plans : List TreatmentPlan
deriving DecidableEq, Repr

/-- Caller-visible failures of a handler: FastAPI 422 request validation,
HTTPException with a detail string, and unhandled exceptions, namely
SQLAlchemy MultipleResultsFound from scalar_one_or_none on >1 row and the
ValueError from AdjustmentReason(value) on an unknown string. -/
inductive ApiError
  | unprocessable
  | badRequest (detail : String)
  | notFound (detail : String)
  | multipleResultsFound
  | internalError
deriving DecidableEq, Repr

/-- Result.scalar_one_or_none(): none on zero rows, the row on one,
raises on several. -/
def scalarOneOrNone {α : Type} (l : List α) : Except ApiError (Option α) :=
  match l with
  | [] => .ok none
  | [a] => .ok (some a)
  | _ => .error .multipleResultsFound

/-- The rows of SELECT .. WHERE user_id = uid AND status = active. -/
def activePlansFor (uid : Nat) (db : Database) : List TreatmentPlan :=
  db.plans.filter fun p => decide (p.user_id = uid ∧ p.status = PlanStatus.active)

/-- Number of active plans of a user: the quantity the one-active-plan
invariant bounds. -/
def activePlanCount (uid : Nat) (db : Database) : Nat :=
  (activePlansFor uid db).length

/-- TreatmentPlanRepository._is_locked: an active plan is locked while
today is strictly before its planned end date. -/
def is_locked (plan : TreatmentPlan) (today : Int) : Bool :=
  if plan.status ≠ PlanStatus.active then false
  else decide (today < plan.planned_end_date)

/-- TreatmentPlanRepository._days_remaining. -/
def days_remaining (plan : TreatmentPlan) (today : Int) : Int :=
  if plan.status ≠ PlanStatus.active then 0
  else max 0 (plan.planned_end_date - today)

/-- TreatmentPlanRepository._days_elapsed. -/
def days_elapsed (plan : TreatmentPlan) (today : Int) : Int :=
  today - plan.start_date

/-- Request body of POST /routines, from backend/schemas/treatment_plan.py
(TreatmentPlanCreate). -/
structure TreatmentPlanCreate where
  primary_concern : String
  baseline_scan_id : Nat
  lock_duration_days : Int
deriving DecidableEq, Repr

/-- Pydantic validation of TreatmentPlanCreate: concern restricted by the
pattern to the four concerns, lock_duration_days in [14, 28]. -/
def TreatmentPlanCreate.valid (d : TreatmentPlanCreate) : Bool :=
  decide (d.primary_concern ∈ ["acne", "redness", "dryness", "oiliness"] ∧
    14 ≤ d.lock_duration_days ∧ d.lock_duration_days ≤ 28)

/-- Request body of PATCH /routines/current, from
backend/schemas/treatment_plan.py (TreatmentPlanUpdate). -/
structure TreatmentPlanUpdate where
  adjustment_reason : String
  adjustment_notes : Option String
deriving DecidableEq, Repr

/-- Pydantic validation of TreatmentPlanUpdate: the reason string must match
the pattern (score_decline|severe_irritation|user_request); everything else,
plan_completion included, is rejected before the handler runs. -/
def TreatmentPlanUpdate.valid (d : TreatmentPlanUpdate) : Bool :=
  decide (d.adjustment_reason ∈ ["score_decline", "severe_irritation", "user_request"])

/-- The AdjustmentReason(value) enum conversion. -/
def parseAdjustmentReason : String → Option AdjustmentReason
  | "score_decline" => some .score_decline
  | "severe_irritation" => some .severe_irritation
  | "user_request" => some .user_request
  | "plan_completion" => some .plan_completion
  | _ => none

/-- Autoincrement primary key for a new plan row. -/
def freshPlanId (db : Database) : Nat := (db.plans.map (fun p => p.id)).foldr max 0 + 1

/-- UPDATE scans SET is_baseline = true WHERE id = scan_id. -/
def markScanBaseline (scans : List Scan) (scan_id : Nat) : List Scan :=
  scans.map fun s => if s.id = scan_id then { s with is_baseline := true } else s

/-- create_treatment_plan from app/api/v1/routes/routines.py.  Reject when
an active plan exists; require a completed baseline scan owned by the user;
generate the routine from the baseline scores; insert a version-1 active
plan and flag the baseline scan; commit everything at the end, so every
error path leaves the database unchanged. -/
def create_treatment_plan (plan_data : TreatmentPlanCreate) (current_user : User)
    (today : Int) (db : Database) : Except ApiError (Database × TreatmentPlan) :=
  if plan_data.valid then
    match scalarOneOrNone (activePlansFor current_user.id db) with
    | .error e => .error e
    | .ok (some _) => .error (.badRequest "You already have an active treatment plan")
    | .ok none =>
      match scalarOneOrNone (db.scans.filter fun s =>
        decide (s.id = plan_data.baseline_scan_id ∧ s.user_id = current_user.id ∧
          s.status = ScanStatus.completed)) with
      | .error e => .error e
      | .ok none => .error (.notFound "Baseline scan not found or not completed")
      | .ok (some baseline_scan) =>
        let scores := baseline_scan.all_scores
        let routine := generate_routine plan_data.primary_concern scores current_user.skin_type
        let recommendations := get_product_recommendations plan_data.primary_concern
        let start_date := today
        let planned_end_date := start_date + plan_data.lock_duration_days
        let new_plan : TreatmentPlan :=
          { id := freshPlanId db
            user_id := current_user.id
            status := PlanStatus.active
            version := 1
            primary_concern := plan_data.primary_concern
            start_date := start_date
            planned_end_date := planned_end_date
            actual_end_date := none
            lock_duration_days := plan_data.lock_duration_days
            baseline_scan_id := some baseline_scan.id
            am_routine := routine.am_routine
            pm_routine := routine.pm_routine
            recommended_products := recommendations
            instructions := "Follow this routine consistently for " ++
              toString plan_data.lock_duration_days ++ " days. Scan weekly to track progress."
            warnings := "Discontinue if you experience severe irritation or allergic reactions."
            can_adjust := false
            adjustment_reason := none
            adjustment_notes := none
            previous_plan_id := none }
        .ok ({ scans := markScanBaseline db.scans baseline_scan.id
               plans := db.plans ++ [new_plan] }, new_plan)
  else .error .unprocessable

/-- The adjustment-eligibility policy of adjust_treatment_plan
(routines.py lines 190-203): severe_irritation always, score_decline via
check_score_decline, user_request via the plan flag, anything else denied. -/
def allow_adjustment (reason : AdjustmentReason) (current_plan : TreatmentPlan)
    (user_id : Nat) (scans : List Scan) : Bool :=
  if reason = AdjustmentReason.severe_irritation then true
  else if reason = AdjustmentReason.score_decline then check_score_decline user_id scans
  else if reason = AdjustmentReason.user_request then current_plan.can_adjust
  else false

/-- adjust_treatment_plan from app/api/v1/routes/routines.py.  Find the
active plan, apply the eligibility policy, stage the transition to
adjusted, pick the latest completed scan as the new baseline (the whole
operation fails when none exists), and commit the closed plan, the
version+1 successor and the baseline flag together. -/
def adjust_treatment_plan (update_data : TreatmentPlanUpdate) (current_user : User)
    (today : Int) (db : Database) : Except ApiError (Database × TreatmentPlan) :=
  if update_data.valid then
    match scalarOneOrNone (activePlansFor current_user.id db) with
    | .error e => .error e
    | .ok none => .error (.notFound "No active treatment plan found")
    | .ok (some current_plan) =>
      match parseAdjustmentReason update_data.adjustment_reason with
      | none => .error .internalError
      | some adjustment_reason =>
        if allow_adjustment adjustment_reason current_plan current_user.id db.scans then
          let adjusted_plan : TreatmentPlan :=
            { current_plan with
                status := PlanStatus.adjusted
                adjustment_reason := some adjustment_reason
                adjustment_notes := update_data.adjustment_notes
                actual_end_date := some today }
          match completedScansDesc current_user.id db.scans with
          | [] => .error (.badRequest "No completed scan available for new plan")
          | latest_scan :: _ =>
            let scores := latest_scan.all_scores
            let routine :=
              generate_routine current_plan.primary_concern scores current_user.skin_type
            let recommendations := get_product_recommendations current_plan.primary_concern
            let new_plan : TreatmentPlan :=
              { id := freshPlanId db
                user_id := current_user.id
                status := PlanStatus.active
                version := current_plan.version + 1
                primary_concern := current_plan.primary_concern
                start_date := today
                planned_end_date := today + current_plan.lock_duration_days
                actual_end_date := none
                lock_duration_days := current_plan.lock_duration_days
                baseline_scan_id := some latest_scan.id
                am_routine := routine.am_routine
                pm_routine := routine.pm_routine
                recommended_products := recommendations
                instructions := "Adjusted routine. Follow consistently for " ++
                  toString current_plan.lock_duration_days ++ " days."
                warnings :=
                  "Discontinue if you experience severe irritation or allergic reactions."
                can_adjust := false
                adjustment_reason := none
                adjustment_notes := none
                previous_plan_id := some current_plan.id }
            .ok ({ scans := markScanBaseline db.scans latest_scan.id
                   plans :=
                     (db.plans.map fun p =>
                       if p.id = current_plan.id then adjusted_plan else p) ++ [new_plan] },
                 new_plan)
        else .error (.badRequest "Treatment plan adjustment not allowed at this time")
  else .error .unprocessable

/-! Concrete fixtures used to instantiate the theorems below. -/

/-- A completed baseline scan of user 1 with acne 50. -/
def exScanA : Scan :=
  { id := 1, user_id := 1, status := ScanStatus.completed, scan_date := 0,
    acne_score := some 50, redness_score := none, oiliness_score := none,
    dryness_score := none, texture_score := none, pore_size_score := none,
    dark_spots_score := none, overall_score := none, is_baseline := true }

/-- A later completed scan of user 1 with acne 60. -/
def exScanB : Scan :=
  { exScanA with id := 2, scan_date := 10, acne_score := some 60, is_baseline := false }

/-- A completed scan of user 1 whose acne score is exactly 0. -/
def exScanZero : Scan :=
  { exScanA with id := 3, scan_date := 20, acne_score := some 0, is_baseline := false }

/-- The user owning the fixtures. -/
def exUser : User := { id := 1, skin_type := none }

/-- An active version-1 plan of user 1 baselined on exScanA. -/
def exPlan : TreatmentPlan :=
  { id := 1, user_id := 1, status := PlanStatus.active, version := 1,
    primary_concern := "acne", start_date := 0, planned_end_date := 14,
    actual_end_date := none, lock_duration_days := 14, baseline_scan_id := some 1,
    am_routine := [], pm_routine := [], recommended_products := [],
    instructions := "", warnings := "", can_adjust := false,
    adjustment_reason := none, adjustment_notes := none, previous_plan_id := none }

/-- Database where the only completed scan is the active plan's own baseline. -/
def exDb : Database := { scans := [exScanA], plans := [exPlan] }

/-- Database with an active plan but no scan at all. -/
def exDbNoScan : Database := { scans := [], plans := [exPlan] }

/-- Database with one completed scan and no plan. -/
def exDbNoPlan : Database := { scans := [exScanA], plans := [] }

/-- A creation request for an acne plan with a 14-day lock on scan 1. -/
def exCreate14 : TreatmentPlanCreate :=
  { primary_concern := "acne", baseline_scan_id := 1, lock_duration_days := 14 }

/-- An adjustment request citing severe irritation. -/
def exUpdSevere : TreatmentPlanUpdate :=
  { adjustment_reason := "severe_irritation", adjustment_notes := none }

/-! Helper lemmas shared by the claim theorems. -/

theorem scalarOneOrNone_ok_none {α : Type} {l : List α}
    (h : scalarOneOrNone l = .ok none) : l = [] := by
  cases l with
  | nil => rfl
  | cons a t => cases t <;> simp [scalarOneOrNone] at h

theorem scalarOneOrNone_ok_some {α : Type} {l : List α} {a : α}
    (h : scalarOneOrNone l = .ok (some a)) : l = [a] := by
  cases l with
  | nil => simp [scalarOneOrNone] at h
  | cons b t =>
      cases t with
      | nil => simp [scalarOneOrNone] at h; simp [h]
      | cons c t2 => simp [scalarOneOrNone] at h

theorem length_filter_map_le {α : Type} (l : List α) (f : α → α) (P : α → Bool)
    (h : ∀ p ∈ l, P (f p) = true → P p = true) :
    ((l.map f).filter P).length ≤ (l.filter P).length := by
  induction l with
  | nil => simp
  | cons a t ih =>
      have ht := ih fun p hp hPf => h p (List.mem_cons_of_mem _ hp) hPf
      by_cases hfa : P (f a) = true
      · have ha := h a (List.mem_cons_self _ _) hfa
        simp [List.filter_cons, hfa, ha]
        omega
      · rw [Bool.not_eq_true] at hfa
        by_cases ha : P a = true
        · simp [List.filter_cons, hfa, ha]
          omega
        · rw [Bool.not_eq_true] at ha
          simp [List.filter_cons, hfa, ha]
          exact ht

theorem markScanBaseline_sets (scans : List Scan) (scan_id : Nat) :
    ∀ s ∈ markScanBaseline scans scan_id, s.id = scan_id → s.is_baseline = true := by
  intro s hs hid
  rw [markScanBaseline, List.mem_map] at hs
  obtain ⟨t, ht, hst⟩ := hs
  by_cases h : t.id = scan_id
  · rw [if_pos h] at hst
    subst hst
    rfl
  · rw [if_neg h] at hst
    subst hst
    exact absurd hid h

theorem filter_map_eq_nil {α : Type} (l : List α) (f : α → α) (P : α → Bool)
    (h : ∀ p ∈ l, P (f p) = false) : (l.map f).filter P = [] := by
  induction l with
  | nil => simp
  | cons a t ih =>
      have ht := ih fun p hp => h p (List.mem_cons_of_mem _ hp)
      simp [List.filter_cons, h a (List.mem_cons_self _ _), ht]

/-! Claim theorems. -/

/-- Claim C5: for every metric present in both scans of a compared pair, the
computed ScoreDelta satisfies delta = current − previous,
improvement = (delta < 0) and is_significant = (|percent_change| ≥ threshold,
default 10); for previous score 50 and current score 60 it yields delta = 10,
percent_change = 20, improvement = false and is_significant = true. -/
theorem claim_C5_score_delta_fields :
    (∀ (current : Scan) (scans : List Scan) (d : ScoreDelta),
        d ∈ calculate_score_deltas current scans →
        d.delta = d.current_score - d.previous_score ∧
        d.improvement = decide (d.delta < 0) ∧
        d.is_significant = decide (abs d.percent_change ≥ SCORE_DECLINE_THRESHOLD)) ∧
    (∀ (previous current : Scan) (m : Metric) (days : Int),
        (mkScoreDelta previous current m 50 60 days).delta = 10 ∧
        (mkScoreDelta previous current m 50 60 days).percent_change = 20 ∧
        (mkScoreDelta previous current m 50 60 days).improvement = false ∧
        (mkScoreDelta previous current m 50 60 days).is_significant = true) := by
  constructor
  · intro current scans d hd
    unfold calculate_score_deltas at hd
    cases hfp : find_previous_scan current scans with
    | none => rw [hfp] at hd; simp at hd
    | some previous =>
        rw [hfp] at hd
        unfold delta_records at hd
        rw [List.mem_filterMap] at hd
        obtain ⟨m, _, hf⟩ := hd
        cases hp : previous.metricScore m <;> cases hc : current.metricScore m <;>
          rw [hp, hc] at hf <;> simp at hf
        subst hf
        exact ⟨rfl, rfl, rfl⟩
  · intro previous current m days
    refine ⟨?_, ?_, ?_, ?_⟩ <;>
      simp [mkScoreDelta, percent_change_of, SCORE_DECLINE_THRESHOLD] <;> norm_num

/-- Witness for C5 on the fixture pair (acne 50 at day 0, acne 60 at day 10). -/
theorem claim_C5_witness :
    mkScoreDelta exScanA exScanB Metric.acne 50 60 10 ∈
        calculate_score_deltas exScanB [exScanA, exScanB] ∧
    (mkScoreDelta exScanA exScanB Metric.acne 50 60 10).delta =
      (mkScoreDelta exScanA exScanB Metric.acne 50 60 10).current_score -
      (mkScoreDelta exScanA exScanB Metric.acne 50 60 10).previous_score := by
  have hval : calculate_score_deltas exScanB [exScanA, exScanB] =
      [mkScoreDelta exScanA exScanB Metric.acne 50 60 10] := by rfl
  have hmem : mkScoreDelta exScanA exScanB Metric.acne 50 60 10 ∈
      calculate_score_deltas exScanB [exScanA, exScanB] := by
    rw [hval]; exact List.mem_singleton_self _
  exact ⟨hmem,
    (claim_C5_score_delta_fields.1 exScanB [exScanA, exScanB] _ hmem).1⟩

/-- Claim C6: a previous score of 0 never divides; the deltas path records
percent_change = 0, and the score-decline check treats such a metric as no
measurable change (it can never report a decline). -/
theorem claim_C6_zero_previous_score :
    (∀ curr_value : ℚ, percent_change_of 0 curr_value = 0) ∧
    (∀ (current previous : Scan) (m : Metric),
        previous.metricScore m = some 0 → metricDecline current previous m = false) := by
  constructor
  · intro curr_value
    simp [percent_change_of]
  · intro current previous m h
    unfold metricDecline
    rw [h]
    cases current.metricScore m <;> simp

/-- Witness for C6: a previous acne score of exactly 0 yields no decline. -/
theorem claim_C6_witness :
    metricDecline exScanB exScanZero Metric.acne = false :=
  claim_C6_zero_previous_score.2 exScanB exScanZero Metric.acne (by decide)

/-- Claim C9: the AM routine is cleanser, toner exactly for acne/oiliness,
serum, moisturizer and always ends with sunscreen; the PM routine is
cleanser, toner exactly for acne/oiliness/redness, treatment, serum,
moisturizer. -/
theorem claim_C9_routine_skeleton :
    ∀ (concern : String) (scores : Scores) (skin_type : Option String),
      ((build_am_routine concern scores skin_type).map (fun s => s.product_type) =
        if concern ∈ ["acne", "oiliness"] then
          ["cleanser", "toner", "serum", "moisturizer", "sunscreen"]
        else ["cleanser", "serum", "moisturizer", "sunscreen"]) ∧
      ((build_am_routine concern scores skin_type).getLast?.map (fun s => s.product_type) =
        some "sunscreen") ∧
      ((build_pm_routine concern scores skin_type).map (fun s => s.product_type) =
        if concern ∈ ["acne", "oiliness", "redness"] then
          ["cleanser", "toner", "treatment", "serum", "moisturizer"]
        else ["cleanser", "treatment", "serum", "moisturizer"]) := by
  intro concern scores skin_type
  refine ⟨?_, ?_, ?_⟩
  · by_cases h : concern ∈ ["acne", "oiliness"] <;> simp [build_am_routine, h]
  · by_cases h : concern ∈ ["acne", "oiliness"] <;> simp [build_am_routine, h]
  · by_cases h : concern ∈ ["acne", "oiliness", "redness"] <;> simp [build_pm_routine, h]

/-- Claim C10: generate_routine never reads the scores argument — the output
is identical for any two score dictionaries. -/
theorem claim_C10_scores_not_read :
    ∀ (concern : String) (s1 s2 : Scores) (skin_type : Option String),
      generate_routine concern s1 skin_type = generate_routine concern s2 skin_type := by
  intro concern s1 s2 skin_type
  rfl

/-- Claim C7: is_locked holds exactly for an active plan strictly before its
planned end date, days_remaining is max(0, end − today) for active plans and
0 otherwise, and a plan created with a 14-day lock is locked on day 13 and
unlocked on days 14 and 15. -/
theorem claim_C7_lock_boundary :
    (∀ (plan : TreatmentPlan) (today : Int),
        (is_locked plan today = true ↔
          plan.status = PlanStatus.active ∧ today < plan.planned_end_date)) ∧
    (∀ (plan : TreatmentPlan) (today : Int),
        days_remaining plan today =
          if plan.status = PlanStatus.active then max 0 (plan.planned_end_date - today)
          else 0) ∧
    ((create_treatment_plan exCreate14 exUser 0 exDbNoPlan).toOption.map
        (fun r => (is_locked r.2 13, is_locked r.2 14, is_locked r.2 15)) =
      some (true, false, false)) := by
  refine ⟨?_, ?_, ?_⟩
  · intro plan today
    unfold is_locked
    by_cases h : plan.status = PlanStatus.active <;> simp [h]
  · intro plan today
    unfold days_remaining
    by_cases h : plan.status = PlanStatus.active <;> simp [h]
  · rfl

/-- Claim C3: severe_irritation is always permitted, user_request is
permitted precisely when the plan's can_adjust flag is set, and any other
reason string — plan_completion or an unrecognized string — is rejected by
request validation before any state is touched. -/
theorem claim_C3_reason_policy :
    (∀ (current_plan : TreatmentPlan) (user_id : Nat) (scans : List Scan),
        allow_adjustment AdjustmentReason.severe_irritation current_plan user_id scans =
          true) ∧
    (∀ (current_plan : TreatmentPlan) (user_id : Nat) (scans : List Scan),
        allow_adjustment AdjustmentReason.user_request current_plan user_id scans =
          current_plan.can_adjust) ∧
    (∀ (update_data : TreatmentPlanUpdate) (u : User) (today : Int) (db : Database),
        update_data.adjustment_reason ∉
            ["score_decline", "severe_irritation", "user_request"] →
        adjust_treatment_plan update_data u today db = .error ApiError.unprocessable) := by
  refine ⟨?_, ?_, ?_⟩
  · intro current_plan user_id scans
    rfl
  · intro current_plan user_id scans
    rfl
  · intro update_data u today db h
    have hval : update_data.valid = false := by
      simp [TreatmentPlanUpdate.valid, h]
    unfold adjust_treatment_plan
    rw [hval]
    simp

/-- Witness for C3: the enum reason plan_completion, valid for the model but
excluded by the request pattern, is rejected with no state change. -/
theorem claim_C3_witness :
    adjust_treatment_plan { adjustment_reason := "plan_completion", adjustment_notes := none }
        exUser 5 exDb = .error ApiError.unprocessable :=
  claim_C3_reason_policy.2.2
    { adjustment_reason := "plan_completion", adjustment_notes := none }
    exUser 5 exDb (by decide)

theorem overall_foldl_eq_sums (l : List ((NormalizedScores → Option ℚ) × ℚ))
    (s : NormalizedScores) (a b : ℚ) :
    (l.foldl
      (fun (acc : ℚ × ℚ) mw =>
        match mw.1 s with
        | some score => (acc.1 + score * mw.2, acc.2 + mw.2)
        | none => acc)
      (a, b)) =
    (a + ((l.filterMap fun mw => (mw.1 s).map fun v => (v, mw.2)).map
        fun p => p.1 * p.2).sum,
     b + ((l.filterMap fun mw => (mw.1 s).map fun v => (v, mw.2)).map
        fun p => p.2).sum) := by
  induction l generalizing a b with
  | nil => simp
  | cons head tail ih =>
      cases h : head.1 s with
      | none => simp [List.foldl_cons, List.filterMap_cons, h, ih]
      | some v =>
          simp [List.foldl_cons, List.filterMap_cons, h, ih]
          constructor <;> ring

theorem overall_weights_pos : ∀ mw ∈ overall_weights, 0 < mw.2 := by
  intro mw hmw
  simp [overall_weights] at hmw
  rcases hmw with h | h | h | h | h | h | h <;> rw [h] <;> norm_num

/-- Claim C8: present raw metric values are clamped into [0,100];
overall_score is the weighted average over present metrics only, with the
weight denominator renormalized to the present weights (rounded to two
decimals as in the source); with no metric present the overall score is 0. -/
theorem claim_C8_overall_score :
    (∀ v : ℚ, normalize_value (some v) = some (max 0 (min 100 v)) ∧
        0 ≤ max 0 (min 100 v) ∧ max 0 (min 100 v) ≤ 100) ∧
    (∀ s : NormalizedScores,
        calculate_overall_score s =
          if (overall_weights.filterMap fun mw => (mw.1 s).map fun v => (v, mw.2)) = []
          then 0
          else round2
            (((overall_weights.filterMap fun mw => (mw.1 s).map fun v => (v, mw.2)).map
                fun p => p.1 * p.2).sum /
             ((overall_weights.filterMap fun mw => (mw.1 s).map fun v => (v, mw.2)).map
                fun p => p.2).sum)) ∧
    (calculate_overall_score (normalize_response none none none none none none none) = 0) := by
  refine ⟨?_, ?_, rfl⟩
  · intro v
    refine ⟨rfl, le_max_left 0 _, ?_⟩
    rcases le_total 100 v with h | h
    · simp [min_eq_left h]
    · calc max 0 (min 100 v) ≤ max 0 (100 : ℚ) := by
            exact max_le_max le_rfl (min_le_left _ _)
        _ = 100 := by norm_num
  · intro s
    unfold calculate_overall_score
    rw [overall_foldl_eq_sums]
    simp only [zero_add]
    by_cases hnil :
        (overall_weights.filterMap fun mw => (mw.1 s).map fun v => (v, mw.2)) = []
    · simp [hnil]
    · have hpos : ∀ w ∈ ((overall_weights.filterMap
          fun mw => (mw.1 s).map fun v => (v, mw.2)).map fun p => p.2), 0 < w := by
        intro w hw
        rw [List.mem_map] at hw
        obtain ⟨p, hp, hw⟩ := hw
        rw [List.mem_filterMap] at hp
        obtain ⟨mw, hmw, hsome⟩ := hp
        have := overall_weights_pos mw hmw
        cases hms : mw.1 s with
        | none => rw [hms] at hsome; simp at hsome
        | some v =>
            rw [hms] at hsome
            simp at hsome
            rw [← hw, ← hsome]
            exact this
      have hsum : 0 < ((overall_weights.filterMap
          fun mw => (mw.1 s).map fun v => (v, mw.2)).map fun p => p.2).sum := by
        apply List.sum_pos _ hpos
        simp [hnil]
      rw [if_neg (by exact ne_of_gt hsum), if_neg hnil]

theorem metricDecline_eq_true_iff (current previous : Scan) (m : Metric) :
    metricDecline current previous m = true ↔
      ∃ curr_val prev_val : ℚ,
        current.metricScore m = some curr_val ∧
        previous.metricScore m = some prev_val ∧
        curr_val ≠ 0 ∧ prev_val ≠ 0 ∧
        (curr_val - prev_val) / prev_val * 100 ≥ SCORE_DECLINE_THRESHOLD := by
  constructor
  · intro h
    unfold metricDecline at h
    cases hc : current.metricScore m with
    | none => rw [hc] at h; exact absurd h (by simp)
    | some curr_val =>
        cases hp : previous.metricScore m with
        | none => rw [hc, hp] at h; exact absurd h (by simp)
        | some prev_val =>
            rw [hc, hp] at h
            change (if curr_val ≠ 0 ∧ prev_val ≠ 0 then
              decide ((curr_val - prev_val) / prev_val * 100 ≥ SCORE_DECLINE_THRESHOLD)
              else false) = true at h
            by_cases hcond : curr_val ≠ 0 ∧ prev_val ≠ 0
            · rw [if_pos hcond] at h
              exact ⟨curr_val, prev_val, rfl, rfl, hcond.1, hcond.2,
                of_decide_eq_true h⟩
            · rw [if_neg hcond] at h
              exact absurd h (by simp)
  · rintro ⟨curr_val, prev_val, hc, hp, h1, h2, hge⟩
    unfold metricDecline
    rw [hc, hp]
    show (if curr_val ≠ 0 ∧ prev_val ≠ 0 then
      decide ((curr_val - prev_val) / prev_val * 100 ≥ SCORE_DECLINE_THRESHOLD)
      else false) = true
    rw [if_pos ⟨h1, h2⟩]
    exact decide_eq_true hge

/-- Claim C4: the score_decline reason is permitted exactly when, over the
user\x27s two most recent completed scans, some primary metric shows a defined
percent change at or above the decline threshold in the worsening
(positive) direction; with fewer than two completed scans it is denied. -/
theorem claim_C4_score_decline_eligibility :
    ∀ (user_id : Nat) (scans : List Scan),
      (check_score_decline user_id scans = true ↔
        ∃ current previous rest,
          completedScansDesc user_id scans = current :: previous :: rest ∧
          ∃ m ∈ primary_metrics, ∃ curr_val prev_val : ℚ,
            current.metricScore m = some curr_val ∧
            previous.metricScore m = some prev_val ∧
            prev_val ≠ 0 ∧
            (curr_val - prev_val) / prev_val * 100 ≥ SCORE_DECLINE_THRESHOLD) ∧
      ((completedScansDesc user_id scans).length < 2 →
        check_score_decline user_id scans = false) := by
  intro user_id scans
  rcases hl : completedScansDesc user_id scans with _ | ⟨c, _ | ⟨p, rest⟩⟩
  · exact ⟨by simp [check_score_decline, hl],
      fun _ => by unfold check_score_decline; rw [hl]⟩
  · exact ⟨by simp [check_score_decline, hl],
      fun _ => by unfold check_score_decline; rw [hl]⟩
  · have hck : check_score_decline user_id scans =
        primary_metrics.any (metricDecline c p) := by
      unfold check_score_decline; rw [hl]
    constructor
    · rw [hck, List.any_eq_true]
      constructor
      · rintro ⟨m, hm, hdecl⟩
        rw [metricDecline_eq_true_iff] at hdecl
        obtain ⟨curr_val, prev_val, hc, hp, -, hpv, hge⟩ := hdecl
        exact ⟨c, p, rest, rfl, m, hm, curr_val, prev_val, hc, hp, hpv, hge⟩
      · rintro ⟨c2, p2, rest2, heq, m, hm, curr_val, prev_val, hc, hp, hpv, hge⟩
        rw [List.cons.injEq, List.cons.injEq] at heq
        obtain ⟨hc2, hp2, -⟩ := heq
        subst hc2
        subst hp2
        have hcv : curr_val ≠ 0 := by
          intro h0
          rw [h0] at hge
          have hval : ((0 : ℚ) - prev_val) / prev_val * 100 = -100 := by
            field_simp
          rw [hval] at hge
          norm_num [SCORE_DECLINE_THRESHOLD] at hge
        refine ⟨m, hm, ?_⟩
        rw [metricDecline_eq_true_iff]
        exact ⟨curr_val, prev_val, hc, hp, hcv, hpv, hge⟩
    · intro hlen
      simp only [List.length_cons] at hlen
      omega

/-- Witness for C4: with a single completed scan the decline reason is
denied. -/
theorem claim_C4_witness :
    check_score_decline 1 [exScanA] = false :=
  (claim_C4_score_decline_eligibility 1 [exScanA]).2 (by decide)

/-- Claim C1: with at most one active plan per subject, creation is rejected
whenever the subject already has an active plan, and both plan creation and
plan adjustment preserve the at-most-one-active-plan invariant for every
subject (error results carry no state change by construction). -/
theorem claim_C1_at_most_one_active :
    ∀ (u : User) (today : Int) (db : Database),
      (∀ uid, activePlanCount uid db ≤ 1) →
      (∀ pd : TreatmentPlanCreate, 1 ≤ activePlanCount u.id db →
        ∃ e, create_treatment_plan pd u today db = .error e) ∧
      (∀ (pd : TreatmentPlanCreate) (db2 : Database) (p : TreatmentPlan),
        create_treatment_plan pd u today db = .ok (db2, p) →
        ∀ uid, activePlanCount uid db2 ≤ 1) ∧
      (∀ (ud : TreatmentPlanUpdate) (db2 : Database) (p : TreatmentPlan),
        adjust_treatment_plan ud u today db = .ok (db2, p) →
        ∀ uid, activePlanCount uid db2 ≤ 1) := by
  intro u today db hinv
  refine ⟨?_, ?_, ?_⟩
  · -- an existing active plan always rejects creation
    intro pd hge
    by_cases hval : pd.valid
    · cases hs : scalarOneOrNone (activePlansFor u.id db) with
      | error e =>
          exact ⟨e, by unfold create_treatment_plan; rw [if_pos hval, hs]⟩
      | ok o =>
          cases o with
          | none =>
              have hnil := scalarOneOrNone_ok_none hs
              rw [activePlanCount, hnil] at hge
              simp at hge
          | some a =>
              exact ⟨.badRequest "You already have an active treatment plan",
                by unfold create_treatment_plan; rw [if_pos hval, hs]⟩
    · exact ⟨.unprocessable, by unfold create_treatment_plan; rw [if_neg hval]⟩
  · -- creation preserves the invariant
    intro pd db2 p hok uid
    unfold create_treatment_plan at hok
    by_cases hval : pd.valid
    · rw [if_pos hval] at hok
      cases hs : scalarOneOrNone (activePlansFor u.id db) with
      | error e => rw [hs] at hok; exact absurd hok (by simp)
      | ok o =>
          rw [hs] at hok
          cases o with
          | some a => exact absurd hok (by simp)
          | none =>
              have hempty : activePlansFor u.id db = [] := scalarOneOrNone_ok_none hs
              cases hb : scalarOneOrNone (db.scans.filter fun s =>
                  decide (s.id = pd.baseline_scan_id ∧ s.user_id = u.id ∧
                    s.status = ScanStatus.completed)) with
              | error e => rw [hb] at hok; exact absurd hok (by simp)
              | ok ob =>
                  rw [hb] at hok
                  cases ob with
                  | none => exact absurd hok (by simp)
                  | some baseline =>
                      simp only [Except.ok.injEq, Prod.mk.injEq] at hok
                      obtain ⟨hdb2, -⟩ := hok
                      subst hdb2
                      simp only [activePlanCount, activePlansFor,
                        List.filter_append, List.length_append]
                      by_cases huid : uid = u.id
                      · subst huid
                        rw [show (db.plans.filter fun q =>
                            decide (q.user_id = u.id ∧ q.status = PlanStatus.active)) =
                            activePlansFor u.id db from rfl, hempty]
                        simp
                      · have huid2 : ¬ u.id = uid := fun h => huid h.symm
                        have h2 := hinv uid
                        rw [activePlanCount, activePlansFor] at h2
                        simp [List.filter, huid2]
                        simpa using h2
    · rw [if_neg hval] at hok
      exact absurd hok (by simp)
  · -- adjustment preserves the invariant
    intro ud db2 p hok uid
    unfold adjust_treatment_plan at hok
    by_cases hval : ud.valid
    · rw [if_pos hval] at hok
      cases hs : scalarOneOrNone (activePlansFor u.id db) with
      | error e => rw [hs] at hok; exact absurd hok (by simp)
      | ok o =>
          rw [hs] at hok
          cases o with
          | none => exact absurd hok (by simp)
          | some current_plan =>
              have hone : activePlansFor u.id db = [current_plan] :=
                scalarOneOrNone_ok_some hs
              cases hr : parseAdjustmentReason ud.adjustment_reason with
              | none =>
                  simp only [hr] at hok
                  exact absurd hok (by simp)
              | some reason =>
                  simp only [hr] at hok
                  by_cases hallow :
                      allow_adjustment reason current_plan u.id db.scans = true
                  · rw [if_pos hallow] at hok
                    cases hcs : completedScansDesc u.id db.scans with
                    | nil => rw [hcs] at hok; exact absurd hok (by simp)
                    | cons latest rest =>
                        rw [hcs] at hok
                        simp only [Except.ok.injEq, Prod.mk.injEq] at hok
                        obtain ⟨hdb2, -⟩ := hok
                        subst hdb2
                        simp only [activePlanCount, activePlansFor,
                          List.filter_append, List.length_append]
                        by_cases huid : uid = u.id
                        · subst huid
                          rw [filter_map_eq_nil db.plans _ _ ?_]
                          · simp [List.filter]
                          · intro q hq
                            by_cases hid : q.id = current_plan.id
                            · simp [hid]
                            · by_cases hP : q.user_id = u.id ∧
                                  q.status = PlanStatus.active
                              · exfalso
                                have hqmem : q ∈ activePlansFor u.id db :=
                                  List.mem_filter.mpr ⟨hq, decide_eq_true hP⟩
                                rw [hone] at hqmem
                                simp at hqmem
                                exact hid (by rw [hqmem])
                              · simp [hid, hP]
                        · have huid2 : ¬ u.id = uid := fun h => huid h.symm
                          have hle := length_filter_map_le db.plans
                            (fun q => if q.id = current_plan.id then
                              { current_plan with
                                  status := PlanStatus.adjusted,
                                  adjustment_reason := some reason,
                                  adjustment_notes := ud.adjustment_notes,
                                  actual_end_date := some today } else q)
                            (fun q => decide (q.user_id = uid ∧
                              q.status = PlanStatus.active)) ?_
                          · have h2 := hinv uid
                            rw [activePlanCount, activePlansFor] at h2
                            have hle2 := le_trans hle h2
                            simp [List.filter, huid2]
                            simpa using hle2
                          · intro q hq hPf
                            by_cases hid : q.id = current_plan.id
                            · simp [hid] at hPf
                            · simpa [hid] using hPf
                  · rw [if_neg hallow] at hok
                    exact absurd hok (by simp)
    · rw [if_neg hval] at hok
      exact absurd hok (by simp)

/-- Witness for C1: with the fixture user already holding an active plan,
creation is rejected. -/
theorem claim_C1_witness :
    ∃ e, create_treatment_plan exCreate14 exUser 0 exDb = .error e :=
  (claim_C1_at_most_one_active exUser 0 exDb
    (fun uid => le_trans (List.length_filter_le _ _) (by simp [exDb]))).1
    exCreate14 (by decide)

/-- Counterexample for C2 as stated: in exDb the only completed scan (id 1,
day 0) is the current plan\x27s own baseline, so no completed scan more recent
than the baseline exists; the claim then demands the whole operation fail,
but the severe_irritation adjustment succeeds and baselines the successor
on that very same scan. -/
theorem claim_C2_counterexample :
    (adjust_treatment_plan exUpdSevere exUser 5 exDb).toOption.map
        (fun r => (r.2.baseline_scan_id, r.2.version, r.2.previous_plan_id)) =
      some (exPlan.baseline_scan_id, 2, some 1) := by
  rfl

/-- Claim C2 (amended): a permitted adjustment of the active plan is atomic —
the active plan transitions to adjusted with actual_end_date = today and the
reason recorded, and in the same operation a successor is created with
version + 1, previous_plan_id = current.id, the same primary_concern and
lock_duration_days, baselined on the subject\x27s most recent completed scan
(is_baseline set true), with no requirement that this scan be more recent
than the current baseline; when the subject has no completed scan at all the
whole operation fails with no state change. -/
theorem claim_C2_adjust_atomic :
    ∀ (ud : TreatmentPlanUpdate) (u : User) (today : Int) (db : Database)
      (current : TreatmentPlan),
      activePlansFor u.id db = [current] →
      ((completedScansDesc u.id db.scans = [] →
          ∃ e, adjust_treatment_plan ud u today db = .error e) ∧
       (∀ (db2 : Database) (p : TreatmentPlan),
          adjust_treatment_plan ud u today db = .ok (db2, p) →
          ∃ latest rest, completedScansDesc u.id db.scans = latest :: rest ∧
            p.version = current.version + 1 ∧
            p.previous_plan_id = some current.id ∧
            p.primary_concern = current.primary_concern ∧
            p.lock_duration_days = current.lock_duration_days ∧
            p.baseline_scan_id = some latest.id ∧
            p.status = PlanStatus.active ∧
            ({ current with
                status := PlanStatus.adjusted,
                adjustment_reason := parseAdjustmentReason ud.adjustment_reason,
                adjustment_notes := ud.adjustment_notes,
                actual_end_date := some today } ∈ db2.plans) ∧
            p ∈ db2.plans ∧
            (∀ s ∈ db2.scans, s.id = latest.id → s.is_baseline = true))) := by
  intro ud u today db current hcur
  have hscalar : scalarOneOrNone (activePlansFor u.id db) = .ok (some current) := by
    rw [hcur]; rfl
  constructor
  · intro hnone
    by_cases hval : ud.valid
    · cases hr : parseAdjustmentReason ud.adjustment_reason with
      | none =>
          exact ⟨.internalError, by simp [adjust_treatment_plan, hval, hscalar, hr]⟩
      | some reason =>
          by_cases hallow : allow_adjustment reason current u.id db.scans = true
          · exact ⟨.badRequest "No completed scan available for new plan",
              by simp [adjust_treatment_plan, hval, hscalar, hr, hallow, hnone]⟩
          · exact ⟨.badRequest "Treatment plan adjustment not allowed at this time",
              by simp [adjust_treatment_plan, hval, hscalar, hr, hallow]⟩
    · exact ⟨.unprocessable, by simp [adjust_treatment_plan, hval]⟩
  · intro db2 p hok
    have hmem_current : current ∈ db.plans := by
      have : current ∈ activePlansFor u.id db := by rw [hcur]; exact List.mem_singleton_self _
      rw [activePlansFor] at this
      exact List.mem_of_mem_filter this
    unfold adjust_treatment_plan at hok
    by_cases hval : ud.valid
    · rw [if_pos hval, hscalar] at hok
      cases hr : parseAdjustmentReason ud.adjustment_reason with
      | none =>
          simp only [hr] at hok
          exact absurd hok (by simp)
      | some reason =>
          simp only [hr] at hok
          by_cases hallow : allow_adjustment reason current u.id db.scans = true
          · rw [if_pos hallow] at hok
            cases hcs : completedScansDesc u.id db.scans with
            | nil => rw [hcs] at hok; exact absurd hok (by simp)
            | cons latest rest =>
                rw [hcs] at hok
                simp only [Except.ok.injEq, Prod.mk.injEq] at hok
                obtain ⟨hdb2, hp⟩ := hok
                subst hdb2
                subst hp
                refine ⟨latest, rest, rfl, rfl, rfl, rfl, rfl, rfl, rfl, ?_, ?_, ?_⟩
                · apply List.mem_append_left
                  rw [List.mem_map]
                  exact ⟨current, hmem_current, by simp [hr]⟩
                · exact List.mem_append_right _ (List.mem_singleton_self _)
                · exact markScanBaseline_sets db.scans latest.id
          · rw [if_neg hallow] at hok
            exact absurd hok (by simp)
    · rw [if_neg hval] at hok
      exact absurd hok (by simp)

/-- Witness for C2 (amended): with an active plan but no completed scan the
adjustment fails outright. -/
theorem claim_C2_witness :
    ∃ e, adjust_treatment_plan exUpdSevere exUser 5 exDbNoScan = .error e :=
  (claim_C2_adjust_atomic exUpdSevere exUser 5 exDbNoScan exPlan (by decide)).1
    (by decide)

end DermaLens
